import Mathlib

/-!
Shallow embedding of the Falcon 9 data-analysis repository
(`falcon9_data_wrangling.py` and `falcon9_data_collection.py`)
and proofs about its normalization, enrichment, filtering,
renaming and export logic.
-/

namespace Falcon9

/-! ### Wiki pipeline (`falcon9_data_wrangling.py`) -/

/-- A cell value in a scraped row: extracted text, or a null filled in by
padding (`None` in the source). -/
abbrev Cell := Option String

/-- One iteration of the row loop in `Falcon9Scraper.parse_launch_table`
(`falcon9_data_wrangling.py` lines 67-80): given the header texts and the
extracted cell texts of one row, either drop the row (`continue`, yielding
`none`) or build the `dict(zip(headers, row_text))` entry. An empty row
(`if not cells: continue`) is dropped; a row whose cell count is below the
header count, or whose space-joined text exceeds 200 characters, is dropped;
a surviving shorter-than-headers row would be padded with nulls. -/
def processRow (headers : List String) (row_text : List String) :
    Option (List (String × Cell)) :=
  if row_text = [] then none
  else if row_text.length < headers.length ∨
      (String.intercalate " " row_text).length > 200 then none
  else
    let padded : List Cell :=
      if row_text.length < headers.length then
        row_text.map some ++
          List.replicate (headers.length - row_text.length) (none : Cell)
      else row_text.map some
    some (headers.zip padded)

/-- `Falcon9Scraper.parse_launch_table` after the HTML extraction step: the
header texts of the first row plus the cell texts of every later row are the
input, and the loop accumulates the surviving `dict(zip(headers, row_text))`
rows in order into `data_rows`. -/
def parse_launch_table (headers : List String) (rows : List (List String)) :
    List (List (String × Cell)) :=
  rows.filterMap (processRow headers)

/-- The fixed `column_mapping` of `Falcon9Scraper.clean_launch_data`
(`falcon9_data_wrangling.py` lines 99-111). -/
def column_mapping : List (String × String) :=
  [("Flight", "Flight No."),
   ("Launch site", "Launch site"),
   ("Payload", "Payload"),
   ("Payload mass", "PayloadMass"),
   ("Orbit", "Orbit"),
   ("Customer", "Customer"),
   ("Launch outcome", "Launch outcome"),
   ("Booster", "Version Booster"),
   ("Booster landing", "Booster landing"),
   ("Date", "Date"),
   ("Time", "Time")]

/-- A scraped table: ordered column headers and ordered rows of cells. -/
structure WikiDF where
  headers : List String
  rows : List (List Cell)
deriving DecidableEq, Repr

/-- `Falcon9Scraper.clean_launch_data`: restricts `column_mapping` to keys
that are among the existing columns, then renames each column label through
the restricted mapping, leaving the cell values and the orders untouched
(`df.rename(columns=...)`). -/
def clean_launch_data (df : WikiDF) : WikiDF :=
  let m := column_mapping.filter (fun kv => df.headers.contains kv.1)
  { headers := df.headers.map (fun h => (m.lookup h).getD h)
    rows := df.rows }

/-- A log line emitted by the pipelines (`logging.info` / `logging.error`). -/
inductive LogMsg
  | info (s : String)
  | error (s : String)
deriving DecidableEq, Repr

/-- `Falcon9Scraper.export_data_to_csv`: attempts the write (`df.to_csv`),
and on any exception catches it and logs an error (`except Exception`);
the outer `Except` is an exception escaping the method, which never
happens here. -/
def export_data_to_csv (write : String → Except String Unit)
    (filename : String) : Except String LogMsg :=
  match write filename with
  | .ok _ => .ok (.info ("Data exported successfully to " ++ filename))
  | .error e => .ok (.error ("Error exporting data to CSV: " ++ e))

/-! ### API pipeline (`falcon9_data_collection.py`) -/

/-- Python truthiness of an optional id string (`if rocket_id:` etc.):
`None` and the empty string are falsy. -/
def isTruthy : Option String → Bool
  | none => false
  | some s => s != ""

/-- A `date_utc` UTC timestamp: an ordinal calendar day plus a time-of-day
component, so that `pd.to_datetime(df[..]).dt.date` is projection to the
day component. -/
structure Timestamp where
  day : Nat
  timeOfDay : Nat
deriving DecidableEq, Repr, Inhabited

/-- A `cores` list element of a primary-listing entry; exactly the keys the
source reads via `core_info.get(...)`. -/
structure CoreUsage where
  core : Option String
  flight : Option Nat
  gridfins : Option Bool
  reused : Option Bool
  legs : Option Bool
  landpad : Option String
  landing_success : Option Bool
  landing_type : Option String
deriving DecidableEq, Repr, Inhabited

/-- One entry of the primary listing after the column projection in
`fetch_launch_data` (keeping rocket, payloads, launchpad, cores,
flight_number and date_utc). -/
structure ApiEntry where
  rocket : Option String
  payloads : List (Option String)
  launchpad : Option String
  cores : List CoreUsage
  flight_number : Nat
  date_utc : Timestamp
deriving DecidableEq, Repr

/-- A row of `raw_data` after the singleton lists are unwrapped
(`x[0]`) and the plain date is derived; column names as in the frame. -/
structure RawRecord where
  rocket : Option String
  payloads : Option String
  launchpad : Option String
  cores : CoreUsage
  flight_number : Nat
  date_utc : Timestamp
  date : Nat
deriving DecidableEq, Repr, Inhabited

/-- `pd.to_datetime(ts).dt.date`: the plain date (no time-of-day). -/
def deriveDate (ts : Timestamp) : Nat := ts.day

/-- The per-entry unwrap and date derivation of `fetch_launch_data` lines
101-106: both list columns are mapped to their sole element (the code runs
this only on entries whose lists have length 1). -/
def unwrapEntry (e : ApiEntry) : RawRecord :=
  { rocket := e.rocket
    payloads := e.payloads.headD none
    launchpad := e.launchpad
    cores := e.cores.headD default
    flight_number := e.flight_number
    date_utc := e.date_utc
    date := deriveDate e.date_utc }

/-- `SpaceXDataExtractor.fetch_launch_data` applied to a successfully
fetched primary listing: keep entries whose `cores` and `payloads` lists
have length 1, unwrap the singletons, derive the plain date, keep entries
dated at or before `limit_date`, and renumber the index from zero (list
position plays the role of the reset index). -/
def fetch_launch_data (limit_date : Nat) (resp : List ApiEntry) :
    List RawRecord :=
  let df1 := resp.filter (fun e => e.cores.length == 1)
  let df2 := df1.filter (fun e => e.payloads.length == 1)
  let df3 := df2.map unwrapEntry
  df3.filter (fun r => r.date ≤ limit_date)

/-- A fetched launchpad detail document; only the keys the source reads. -/
structure LaunchpadResp where
  name : Option String
  longitude : Option Int
  latitude : Option Int
deriving DecidableEq, Repr

/-- A fetched payload detail document; only the keys the source reads. -/
structure PayloadResp where
  mass_kg : Option Int
  orbit : Option String
deriving DecidableEq, Repr

/-- A fetched rocket detail document; only the key the source reads. -/
structure RocketResp where
  name : Option String
deriving DecidableEq, Repr

/-- A fetched core detail document; only the keys the source reads. -/
structure CoreResp where
  block : Option Nat
  reuse_count : Option Nat
  serial : Option String
deriving DecidableEq, Repr

/-- The network as an oracle: `fetch_json` on each detail endpoint either
returns the parsed document or `none` on any request error. -/
structure Api where
  fetchRocket : String → Option RocketResp
  fetchLaunchpad : String → Option LaunchpadResp
  fetchPayload : String → Option PayloadResp
  fetchCore : String → Option CoreResp

/-- One iteration of `get_booster_version_data`: the value appended to
`booster_versions` for one rocket id. -/
def boosterOf (api : Api) (rocket_id : Option String) : Option String :=
  if isTruthy rocket_id then
    match api.fetchRocket (rocket_id.getD "") with
    | some resp => resp.name
    | none => none
  else none

/-- `SpaceXDataExtractor.get_booster_version_data` as the list it grows. -/
def get_booster_version_data (api : Api) (raw : List RawRecord) :
    List (Option String) :=
  raw.map (fun r => boosterOf api r.rocket)

/-- One iteration of `get_launch_site_data`: the (longitude, latitude,
name) values appended for one launchpad id. -/
def siteOf (api : Api) (launchpad_id : Option String) :
    Option Int × Option Int × Option String :=
  if isTruthy launchpad_id then
    match api.fetchLaunchpad (launchpad_id.getD "") with
    | some resp => (resp.longitude, resp.latitude, resp.name)
    | none => (none, none, none)
  else (none, none, none)

/-- `SpaceXDataExtractor.get_launch_site_data` as the three lists it grows:
`longitudes`, `latitudes`, `launch_sites`, in that order. -/
def get_launch_site_data (api : Api) (raw : List RawRecord) :
    List (Option Int) × List (Option Int) × List (Option String) :=
  (raw.map (fun r => (siteOf api r.launchpad).1),
   raw.map (fun r => (siteOf api r.launchpad).2.1),
   raw.map (fun r => (siteOf api r.launchpad).2.2))

/-- One iteration of `get_payload_data`: the (mass, orbit) values appended
for one payload id. -/
def payloadOf (api : Api) (payload_id : Option String) :
    Option Int × Option String :=
  if isTruthy payload_id then
    match api.fetchPayload (payload_id.getD "") with
    | some resp => (resp.mass_kg, resp.orbit)
    | none => (none, none)
  else (none, none)

/-- `SpaceXDataExtractor.get_payload_data` as the two lists it grows:
`payload_masses` and `orbits`. -/
def get_payload_data (api : Api) (raw : List RawRecord) :
    List (Option Int) × List (Option String) :=
  (raw.map (fun r => (payloadOf api r.payloads).1),
   raw.map (fun r => (payloadOf api r.payloads).2))

/-- Python `str()` of an optional boolean, as an f-string renders it:
`None` prints as "None", booleans as "True" and "False". -/
def pyStrOptBool : Option Bool → String
  | none => "None"
  | some true => "True"
  | some false => "False"

/-- Python `str()` of an optional string inside an f-string: `None` prints
as "None". -/
def pyStrOptStr : Option String → String
  | none => "None"
  | some s => s

/-- The formatted outcome string of `get_core_data` line 197: the rendered
landing-success flag and the rendered landing-type string joined by one
space. -/
def outcomeOf (core_info : CoreUsage) : String :=
  pyStrOptBool core_info.landing_success ++ " " ++
    pyStrOptStr core_info.landing_type

/-- One iteration of the core look-up in `get_core_data`: the (block,
reuse_count, serial) values appended for one `cores` entry. -/
def coreLookupOf (api : Api) (core_info : CoreUsage) :
    Option Nat × Option Nat × Option String :=
  if isTruthy core_info.core then
    match api.fetchCore (core_info.core.getD "") with
    | some resp => (resp.block, resp.reuse_count, resp.serial)
    | none => (none, none, none)
  else (none, none, none)

/-- The nine lists grown by `get_core_data`, in source field order. -/
structure CoreLists where
  block_numbers : List (Option Nat)
  reuse_counts : List (Option Nat)
  core_serials : List (Option String)
  outcomes : List String
  flights : List (Option Nat)
  grid_fins : List (Option Bool)
  reused_status : List (Option Bool)
  legs : List (Option Bool)
  landing_pads : List (Option String)
deriving DecidableEq, Repr

/-- `SpaceXDataExtractor.get_core_data` as the lists it grows; the copied
`CoreUsage` fields are appended for every record, regardless of whether the
core look-up succeeded. -/
def get_core_data (api : Api) (raw : List RawRecord) : CoreLists :=
  { block_numbers := raw.map (fun r => (coreLookupOf api r.cores).1)
    reuse_counts := raw.map (fun r => (coreLookupOf api r.cores).2.1)
    core_serials := raw.map (fun r => (coreLookupOf api r.cores).2.2)
    outcomes := raw.map (fun r => outcomeOf r.cores)
    flights := raw.map (fun r => r.cores.flight)
    grid_fins := raw.map (fun r => r.cores.gridfins)
    reused_status := raw.map (fun r => r.cores.reused)
    legs := raw.map (fun r => r.cores.legs)
    landing_pads := raw.map (fun r => r.cores.landpad) }

/-- The mutable state of `SpaceXDataExtractor`: `raw_data` plus the fifteen
per-field accumulator lists initialized in `__init__`. -/
structure ExtractorState where
  raw_data : List RawRecord
  booster_versions : List (Option String)
  payload_masses : List (Option Int)
  orbits : List (Option String)
  launch_sites : List (Option String)
  outcomes : List String
  flights : List (Option Nat)
  grid_fins : List (Option Bool)
  reused_status : List (Option Bool)
  legs : List (Option Bool)
  landing_pads : List (Option String)
  block_numbers : List (Option Nat)
  reuse_counts : List (Option Nat)
  core_serials : List (Option String)
  longitudes : List (Option Int)
  latitudes : List (Option Int)
deriving DecidableEq, Repr

/-- The extractor state after `process_all_data` has run the four getters
over the normalized `raw_data` list `raw`. -/
def enrich (api : Api) (raw : List RawRecord) : ExtractorState :=
  { raw_data := raw
    booster_versions := get_booster_version_data api raw
    payload_masses := (get_payload_data api raw).1
    orbits := (get_payload_data api raw).2
    launch_sites := (get_launch_site_data api raw).2.2
    outcomes := (get_core_data api raw).outcomes
    flights := (get_core_data api raw).flights
    grid_fins := (get_core_data api raw).grid_fins
    reused_status := (get_core_data api raw).reused_status
    legs := (get_core_data api raw).legs
    landing_pads := (get_core_data api raw).landing_pads
    block_numbers := (get_core_data api raw).block_numbers
    reuse_counts := (get_core_data api raw).reuse_counts
    core_serials := (get_core_data api raw).core_serials
    longitudes := (get_launch_site_data api raw).1
    latitudes := (get_launch_site_data api raw).2.1 }

/-- One row of the final table, with the columns of the `launch_data` dict
in `_create_dataframe`, in source order. -/
structure LaunchRow where
  flightNumber : Nat
  date : Timestamp
  boosterVersion : Option String
  payloadMass : Option Int
  orbit : Option String
  launchSite : Option String
  outcome : String
  flights : Option Nat
  gridFins : Option Bool
  reused : Option Bool
  legs : Option Bool
  landingPad : Option String
  block : Option Nat
  reusedCount : Option Nat
  serial : Option String
  longitude : Option Int
  latitude : Option Int
deriving DecidableEq, Repr

/-- Row `i` of the `launch_data` dict-of-columns built in
`_create_dataframe`: the i-th element of each accumulated column
(`FlightNumber` and `Date` come from `raw_data`; the `Date` column is the
`date_utc` column, not the derived `date`). -/
def rowAt (s : ExtractorState) (i : Nat) : LaunchRow :=
  { flightNumber := (s.raw_data.map RawRecord.flight_number).getD i 0
    date := (s.raw_data.map RawRecord.date_utc).getD i default
    boosterVersion := s.booster_versions.getD i none
    payloadMass := s.payload_masses.getD i none
    orbit := s.orbits.getD i none
    launchSite := s.launch_sites.getD i none
    outcome := s.outcomes.getD i ""
    flights := s.flights.getD i none
    gridFins := s.grid_fins.getD i none
    reused := s.reused_status.getD i none
    legs := s.legs.getD i none
    landingPad := s.landing_pads.getD i none
    block := s.block_numbers.getD i none
    reusedCount := s.reuse_counts.getD i none
    serial := s.core_serials.getD i none
    longitude := s.longitudes.getD i none
    latitude := s.latitudes.getD i none }

/-- `SpaceXDataExtractor._create_dataframe`: builds the frame of
`raw_data`-many rows from the parallel columns, then keeps exactly the rows
whose BoosterVersion differs from the literal "Falcon 1". -/
def _create_dataframe (s : ExtractorState) : List LaunchRow :=
  ((List.range s.raw_data.length).map (rowAt s)).filter
    (fun row => row.boosterVersion != some "Falcon 1")

/-- `SpaceXDataExtractor.export_to_csv`: with processed data present it
calls `to_csv` with no exception handler and then logs success; with no
processed data it only logs an error. The outer `Except` is an exception
escaping the method: a failing write propagates uncaught. -/
def export_to_csv (write : String → Except String Unit)
    (processed_data : Option (List LaunchRow)) (filename : String) :
    Except String LogMsg :=
  match processed_data with
  | some _ =>
    match write filename with
    | .ok _ => .ok (.info ("Data exported to " ++ filename))
    | .error e => .error e
  | none =>
    .ok (.error "No processed data available. Run process_all_data() first.")

/-! ### Concrete fixtures used by witnesses -/

/-- The combined keep-condition of the API normalizer: singleton payload
list, singleton core list, and derived date at or before the cutoff. -/
def normPred (limit : Nat) (e : ApiEntry) : Prop :=
  e.payloads.length = 1 ∧ e.cores.length = 1 ∧ deriveDate e.date_utc ≤ limit

instance (limit : Nat) (e : ApiEntry) : Decidable (normPred limit e) := by
  unfold normPred; infer_instance

/-- A single-payload single-core entry dated exactly at the cutoff day 5
(with a nonzero time-of-day). -/
def entAtCutoff : ApiEntry :=
  { rocket := some "r", payloads := [some "p"], launchpad := some "l",
    cores := [default], flight_number := 1, date_utc := ⟨5, 30⟩ }

/-- A single-payload single-core entry dated one day after the cutoff
day 5. -/
def entAfterCutoff : ApiEntry :=
  { rocket := some "r", payloads := [some "p"], launchpad := some "l",
    cores := [default], flight_number := 2, date_utc := ⟨6, 0⟩ }

/-- A network oracle on which every dependent look-up fails. -/
def apiFail : Api :=
  { fetchRocket := fun _ => none, fetchLaunchpad := fun _ => none,
    fetchPayload := fun _ => none, fetchCore := fun _ => none }

/-! ### Helper lemmas -/

/-- A row whose cell count is below the header count is dropped by the row
loop, whatever its joined text length. -/
lemma processRow_eq_none_of_short (headers : List String)
    (row_text : List String) (h : row_text.length < headers.length) :
    processRow headers row_text = none := by
  unfold processRow
  by_cases he : row_text = []
  · simp [he]
  · simp [he, h]

/-- Unfolding of the API normalizer on a cons: the head entry contributes
its unwrapped record exactly when it meets the keep-condition. -/
lemma fetch_launch_data_cons (limit : Nat) (e : ApiEntry)
    (t : List ApiEntry) :
    fetch_launch_data limit (e :: t) =
      (if normPred limit e then [unwrapEntry e] else []) ++
        fetch_launch_data limit t := by
  unfold fetch_launch_data normPred
  by_cases h1 : e.cores.length = 1
  · by_cases h2 : e.payloads.length = 1
    · by_cases h3 : deriveDate e.date_utc ≤ limit
      · have h4 : e.date_utc.day ≤ limit := h3
        simp [List.filter_cons, h1, h2, h4, unwrapEntry, deriveDate]
      · have h4 : ¬e.date_utc.day ≤ limit := h3
        simp [List.filter_cons, h1, h2, h4, unwrapEntry, deriveDate]
    · simp [List.filter_cons, h1, h2]
  · simp [List.filter_cons, h1]

/-- Indexing with a default into a mapped list, below the length. -/
lemma getD_map {α β : Type} (f : α → β) (l : List α) (i : Nat)
    (h : i < l.length) (d : β) (d' : α) :
    (l.map f).getD i d = f (l.getD i d') := by
  rw [List.getD_eq_getElem?_getD, List.getD_eq_getElem?_getD,
    List.getElem?_map, List.getElem?_eq_getElem h]
  rfl

/-- A missing rocket id or a failed rocket fetch yields a null booster
version. -/
lemma boosterOf_eq_none (api : Api) (x : Option String)
    (h : isTruthy x = false ∨ api.fetchRocket (x.getD "") = none) :
    boosterOf api x = none := by
  unfold boosterOf
  rcases h with h | h
  · simp [h]
  · by_cases ht : isTruthy x
    · simp [ht, h]
    · simp [ht]

/-- A missing launchpad id or a failed launchpad fetch yields null
longitude, latitude and site name. -/
lemma siteOf_eq_none (api : Api) (x : Option String)
    (h : isTruthy x = false ∨ api.fetchLaunchpad (x.getD "") = none) :
    siteOf api x = (none, none, none) := by
  unfold siteOf
  rcases h with h | h
  · simp [h]
  · by_cases ht : isTruthy x
    · simp [ht, h]
    · simp [ht]

/-- A missing payload id or a failed payload fetch yields null mass and
orbit. -/
lemma payloadOf_eq_none (api : Api) (x : Option String)
    (h : isTruthy x = false ∨ api.fetchPayload (x.getD "") = none) :
    payloadOf api x = (none, none) := by
  unfold payloadOf
  rcases h with h | h
  · simp [h]
  · by_cases ht : isTruthy x
    · simp [ht, h]
    · simp [ht]

/-- A missing core id or a failed core fetch yields null block, reuse count
and serial. -/
lemma coreLookupOf_eq_none (api : Api) (c : CoreUsage)
    (h : isTruthy c.core = false ∨ api.fetchCore (c.core.getD "") = none) :
    coreLookupOf api c = (none, none, none) := by
  unfold coreLookupOf
  rcases h with h | h
  · simp [h]
  · by_cases ht : isTruthy c.core
    · simp [ht, h]
    · simp [ht]

/-- Restricting an association list to keys drawn from `hs` does not change
look-ups of keys that are in `hs`. -/
lemma lookup_filter_contains {β : Type} (l : List (String × β))
    (hs : List String) (h : String) (hmem : h ∈ hs) :
    (l.filter (fun kv => hs.contains kv.1)).lookup h = l.lookup h := by
  induction l with
  | nil => rfl
  | cons kv t ih =>
    cases hk : (h == kv.1) with
    | true =>
      have hkv : kv.1 = h := (eq_of_beq hk).symm
      have hin : kv.1 ∈ hs := by rw [hkv]; exact hmem
      simp [List.filter_cons, hin, List.lookup, hk, ih]
    | false =>
      by_cases hc : kv.1 ∈ hs
      · simp [List.filter_cons, hc, List.lookup, hk]
        simpa using ih
      · simp [List.filter_cons, hc, List.lookup, hk]
        simpa using ih

/-! ### Claim theorems -/

/-- C1 (counterexample): a row of one cell under two headers has fewer
cells than headers and joined text of at most 200 characters, yet
`parse_launch_table` drops it instead of padding it and including it: the
output is empty, refuting the claim at this input. -/
theorem c1_counterexample :
    (["x"] : List String).length < (["A", "B"] : List String).length ∧
      (String.intercalate " " ["x"]).length ≤ 200 ∧
      parse_launch_table ["A", "B"] [["x"]] = [] := by
  refine ⟨by decide, by decide, by rfl⟩

/-- C1 (amended): in the wiki table normalizer, every row whose cell count
is fewer than the header count is dropped, regardless of its joined text
length; consequently the null-padding branch never fires and such rows are
never included in the output. -/
theorem c1_short_row_dropped (headers : List String) (row_text : List String)
    (rows : List (List String)) (h : row_text.length < headers.length) :
    parse_launch_table headers (row_text :: rows) =
      parse_launch_table headers rows := by
  simp [parse_launch_table, List.filterMap_cons,
    processRow_eq_none_of_short headers row_text h]

/-- C1 witness: the amended theorem applied to the one-cell row under two
headers. -/
theorem c1_witness :
    (["x"] : List String).length < (["A", "B"] : List String).length ∧
      parse_launch_table ["A", "B"] [["x"]] = parse_launch_table ["A", "B"] [] :=
  ⟨by decide, c1_short_row_dropped ["A", "B"] ["x"] [] (by decide)⟩

/-- C2 (counterexample): on a write error, the API pipeline export
`export_to_csv` raises the error past its boundary (there is no handler
around `to_csv`), refuting the claim that both exports return normally on
any write error. -/
theorem c2_counterexample :
    export_to_csv (fun _ => .error "permission denied") (some [])
      "SpaceX_API_data.csv" = .error "permission denied" := rfl

/-- C2 (amended): the wiki pipeline export `export_data_to_csv` never
raises past its boundary (it logs the failure and returns normally for
every write outcome), while the API pipeline export `export_to_csv`
propagates any write error past its boundary unchanged. -/
theorem c2_export_error_behavior :
    (∀ (write : String → Except String Unit) (filename : String),
      (export_data_to_csv write filename).isOk = true) ∧
    (∀ (write : String → Except String Unit) (df : List LaunchRow)
      (filename e : String), write filename = .error e →
      export_to_csv write (some df) filename = .error e) := by
  constructor
  · intro write filename
    unfold export_data_to_csv
    cases write filename <;> rfl
  · intro write df filename e h
    simp [export_to_csv, h]

/-- C2 witness: the amended theorem applied to a write that fails with
"permission denied". -/
theorem c2_witness :
    (export_data_to_csv (fun _ => .error "permission denied")
      "SpaceX_API_data.csv").isOk = true ∧
    export_to_csv (fun _ => .error "permission denied") (some [])
      "SpaceX_API_data.csv" = .error "permission denied" :=
  ⟨c2_export_error_behavior.1 _ _, c2_export_error_behavior.2 _ [] _ _ rfl⟩

/-- C3: for every primary-listing input sequence, the API normalizer
outputs exactly the unwrapped forms of the entries whose payload list and
core list each have length 1 and whose derived date is at most the cutoff,
in the original relative order with positions renumbered from zero; in
particular the output length is the count of such entries. -/
theorem c3_normalizer_characterization (limit : Nat) (resp : List ApiEntry) :
    fetch_launch_data limit resp =
      (resp.filter (fun e => decide (normPred limit e))).map unwrapEntry ∧
    (fetch_launch_data limit resp).length =
      resp.countP (fun e => decide (normPred limit e)) := by
  have hmain : fetch_launch_data limit resp =
      (resp.filter (fun e => decide (normPred limit e))).map unwrapEntry := by
    induction resp with
    | nil => rfl
    | cons e t ih =>
      rw [fetch_launch_data_cons, ih, List.filter_cons]
      by_cases h : normPred limit e
      · simp [h]
      · simp [h]
  refine ⟨hmain, ?_⟩
  rw [hmain, List.length_map, ← List.countP_eq_length_filter]

/-- C4: the cutoff-date filter of the API normalizer is inclusive: a
single-payload single-core entry whose derived date equals the cutoff is
retained, and one whose derived date is one day after the cutoff is
excluded. -/
theorem c4_cutoff_inclusive (limit : Nat) (e : ApiEntry)
    (hp : e.payloads.length = 1) (hc : e.cores.length = 1) :
    (deriveDate e.date_utc = limit →
      fetch_launch_data limit [e] = [unwrapEntry e]) ∧
    (deriveDate e.date_utc = limit + 1 →
      fetch_launch_data limit [e] = []) := by
  constructor
  · intro hd
    rw [fetch_launch_data_cons]
    have : normPred limit e := ⟨hp, hc, le_of_eq hd⟩
    simp [this, fetch_launch_data]
  · intro hd
    rw [fetch_launch_data_cons]
    have : ¬ normPred limit e := by
      intro hn
      exact absurd hn.2.2 (by omega)
    simp [this, fetch_launch_data]

/-- C4 witness: with cutoff day 5, the entry dated day 5 is retained and
the entry dated day 6 is excluded. -/
theorem c4_witness :
    fetch_launch_data 5 [entAtCutoff] = [unwrapEntry entAtCutoff] ∧
    fetch_launch_data 5 [entAfterCutoff] = [] :=
  ⟨(c4_cutoff_inclusive 5 entAtCutoff (by decide) (by decide)).1 rfl,
   (c4_cutoff_inclusive 5 entAfterCutoff (by decide) (by decide)).2 rfl⟩

/-- C5: a row is in the processed table of final assembly exactly when it
is one of the assembled rows and its BoosterVersion differs from the
literal "Falcon 1": every "Falcon 1" record is absent, every other record
is present, and no other filter is applied at this stage. -/
theorem c5_falcon1_filter (s : ExtractorState) (row : LaunchRow) :
    row ∈ _create_dataframe s ↔
      (row ∈ (List.range s.raw_data.length).map (rowAt s) ∧
        row.boosterVersion ≠ some "Falcon 1") := by
  simp [_create_dataframe, List.mem_filter]

/-- C6: for every record, the enricher synthesizes the Outcome string by
concatenating the rendered landing-success flag and the rendered
landing-type string with exactly one space separator, and when both
components are absent their literal absent-representations are concatenated
in place, giving "None None". -/
theorem c6_outcome_string :
    (∀ (api : Api) (raw : List RawRecord),
      (get_core_data api raw).outcomes = raw.map (fun r =>
        pyStrOptBool r.cores.landing_success ++ " " ++
          pyStrOptStr r.cores.landing_type)) ∧
    (∀ c : CoreUsage,
      outcomeOf { c with landing_success := none, landing_type := none } =
        "None None") := by
  constructor
  · intro api raw
    rfl
  · intro c
    rfl

/-- C7: after enrichment of N raw records, every per-field accumulator
list has length exactly N; the i-th element of each list is determined by
the i-th raw record; and a missing id or failed dependent look-up yields
null values for exactly that record and field group, never dropping or
shifting the record. -/
theorem c7_accumulator_invariant (api : Api) (raw : List RawRecord) :
    ((enrich api raw).booster_versions.length = raw.length ∧
     (enrich api raw).payload_masses.length = raw.length ∧
     (enrich api raw).orbits.length = raw.length ∧
     (enrich api raw).launch_sites.length = raw.length ∧
     (enrich api raw).outcomes.length = raw.length ∧
     (enrich api raw).flights.length = raw.length ∧
     (enrich api raw).grid_fins.length = raw.length ∧
     (enrich api raw).reused_status.length = raw.length ∧
     (enrich api raw).legs.length = raw.length ∧
     (enrich api raw).landing_pads.length = raw.length ∧
     (enrich api raw).block_numbers.length = raw.length ∧
     (enrich api raw).reuse_counts.length = raw.length ∧
     (enrich api raw).core_serials.length = raw.length ∧
     (enrich api raw).longitudes.length = raw.length ∧
     (enrich api raw).latitudes.length = raw.length) ∧
    (∀ i, i < raw.length →
      ((enrich api raw).booster_versions.getD i none =
        boosterOf api (raw.getD i default).rocket ∧
       (enrich api raw).payload_masses.getD i none =
        (payloadOf api (raw.getD i default).payloads).1 ∧
       (enrich api raw).orbits.getD i none =
        (payloadOf api (raw.getD i default).payloads).2 ∧
       (enrich api raw).launch_sites.getD i none =
        (siteOf api (raw.getD i default).launchpad).2.2 ∧
       (enrich api raw).outcomes.getD i "" =
        outcomeOf (raw.getD i default).cores ∧
       (enrich api raw).flights.getD i none =
        (raw.getD i default).cores.flight ∧
       (enrich api raw).grid_fins.getD i none =
        (raw.getD i default).cores.gridfins ∧
       (enrich api raw).reused_status.getD i none =
        (raw.getD i default).cores.reused ∧
       (enrich api raw).legs.getD i none =
        (raw.getD i default).cores.legs ∧
       (enrich api raw).landing_pads.getD i none =
        (raw.getD i default).cores.landpad ∧
       (enrich api raw).block_numbers.getD i none =
        (coreLookupOf api (raw.getD i default).cores).1 ∧
       (enrich api raw).reuse_counts.getD i none =
        (coreLookupOf api (raw.getD i default).cores).2.1 ∧
       (enrich api raw).core_serials.getD i none =
        (coreLookupOf api (raw.getD i default).cores).2.2 ∧
       (enrich api raw).longitudes.getD i none =
        (siteOf api (raw.getD i default).launchpad).1 ∧
       (enrich api raw).latitudes.getD i none =
        (siteOf api (raw.getD i default).launchpad).2.1)) ∧
    (∀ i, i < raw.length →
      ((isTruthy (raw.getD i default).rocket = false ∨
          api.fetchRocket ((raw.getD i default).rocket.getD "") = none →
        (enrich api raw).booster_versions.getD i none = none) ∧
       (isTruthy (raw.getD i default).launchpad = false ∨
          api.fetchLaunchpad ((raw.getD i default).launchpad.getD "") = none →
        (enrich api raw).longitudes.getD i none = none ∧
        (enrich api raw).latitudes.getD i none = none ∧
        (enrich api raw).launch_sites.getD i none = none) ∧
       (isTruthy (raw.getD i default).payloads = false ∨
          api.fetchPayload ((raw.getD i default).payloads.getD "") = none →
        (enrich api raw).payload_masses.getD i none = none ∧
        (enrich api raw).orbits.getD i none = none) ∧
       (isTruthy (raw.getD i default).cores.core = false ∨
          api.fetchCore ((raw.getD i default).cores.core.getD "") = none →
        (enrich api raw).block_numbers.getD i none = none ∧
        (enrich api raw).reuse_counts.getD i none = none ∧
        (enrich api raw).core_serials.getD i none = none))) := by
  refine ⟨?_, ?_, ?_⟩
  · simp [enrich, get_booster_version_data, get_payload_data,
      get_launch_site_data, get_core_data]
  · intro i hi
    exact ⟨getD_map _ raw i hi none default, getD_map _ raw i hi none default,
      getD_map _ raw i hi none default, getD_map _ raw i hi none default,
      getD_map _ raw i hi "" default, getD_map _ raw i hi none default,
      getD_map _ raw i hi none default, getD_map _ raw i hi none default,
      getD_map _ raw i hi none default, getD_map _ raw i hi none default,
      getD_map _ raw i hi none default, getD_map _ raw i hi none default,
      getD_map _ raw i hi none default, getD_map _ raw i hi none default,
      getD_map _ raw i hi none default⟩
  · intro i hi
    refine ⟨?_, ?_, ?_, ?_⟩
    · intro h
      rw [show (enrich api raw).booster_versions =
        raw.map (fun r => boosterOf api r.rocket) from rfl,
        getD_map _ raw i hi none default, boosterOf_eq_none api _ h]
    · intro h
      have hs := siteOf_eq_none api (raw.getD i default).launchpad h
      refine ⟨?_, ?_, ?_⟩
      · rw [show (enrich api raw).longitudes =
          raw.map (fun r => (siteOf api r.launchpad).1) from rfl,
          getD_map _ raw i hi none default, hs]
      · rw [show (enrich api raw).latitudes =
          raw.map (fun r => (siteOf api r.launchpad).2.1) from rfl,
          getD_map _ raw i hi none default, hs]
      · rw [show (enrich api raw).launch_sites =
          raw.map (fun r => (siteOf api r.launchpad).2.2) from rfl,
          getD_map _ raw i hi none default, hs]
    · intro h
      have hp := payloadOf_eq_none api (raw.getD i default).payloads h
      refine ⟨?_, ?_⟩
      · rw [show (enrich api raw).payload_masses =
          raw.map (fun r => (payloadOf api r.payloads).1) from rfl,
          getD_map _ raw i hi none default, hp]
      · rw [show (enrich api raw).orbits =
          raw.map (fun r => (payloadOf api r.payloads).2) from rfl,
          getD_map _ raw i hi none default, hp]
    · intro h
      have hco := coreLookupOf_eq_none api (raw.getD i default).cores h
      refine ⟨?_, ?_, ?_⟩
      · rw [show (enrich api raw).block_numbers =
          raw.map (fun r => (coreLookupOf api r.cores).1) from rfl,
          getD_map _ raw i hi none default, hco]
      · rw [show (enrich api raw).reuse_counts =
          raw.map (fun r => (coreLookupOf api r.cores).2.1) from rfl,
          getD_map _ raw i hi none default, hco]
      · rw [show (enrich api raw).core_serials =
          raw.map (fun r => (coreLookupOf api r.cores).2.2) from rfl,
          getD_map _ raw i hi none default, hco]

/-- C7 witness: one record, every look-up failing: the booster accumulator
still has length one and holds a null for that record. -/
theorem c7_witness :
    (enrich apiFail [default]).booster_versions.length = 1 ∧
    (enrich apiFail [default]).booster_versions.getD 0 none = none ∧
    (enrich apiFail [default]).payload_masses.getD 0 none = none :=
  ⟨(c7_accumulator_invariant apiFail [default]).1.1,
   ((c7_accumulator_invariant apiFail [default]).2.2 0 (by decide)).1
     (Or.inl rfl),
   (((c7_accumulator_invariant apiFail [default]).2.2 0 (by decide)).2.2.1
     (Or.inl rfl)).1⟩

/-- C8: the column renamer maps every header through the fixed mapping
when present and passes every unknown header through unchanged, with no
reordering and no transformation of cell values; in particular a table
with headers "Booster" and "Notes" comes out with headers
"Version Booster" and "Notes" and identical rows. -/
theorem c8_rename :
    (∀ df : WikiDF,
      (clean_launch_data df).headers =
        df.headers.map (fun h => (column_mapping.lookup h).getD h) ∧
      (clean_launch_data df).rows = df.rows) ∧
    clean_launch_data ⟨["Booster", "Notes"], [[some "B5", some "n"]]⟩ =
      ⟨["Version Booster", "Notes"], [[some "B5", some "n"]]⟩ := by
  constructor
  · intro df
    refine ⟨?_, rfl⟩
    unfold clean_launch_data
    apply List.map_congr_left
    intro h hmem
    rw [lookup_filter_contains column_mapping df.headers h hmem]
  · decide

/-- C9: a record whose booster look-up yielded the null value survives the
final "Falcon 1" filter and appears in the processed table, because the
inequality test against "Falcon 1" holds for the null value. -/
theorem c9_null_booster_survives (api : Api) (raw : List RawRecord)
    (i : Nat) (hi : i < raw.length)
    (hb : boosterOf api (raw.getD i default).rocket = none) :
    rowAt (enrich api raw) i ∈ _create_dataframe (enrich api raw) := by
  have hrow : (rowAt (enrich api raw) i).boosterVersion = none := by
    show (enrich api raw).booster_versions.getD i none = none
    rw [show (enrich api raw).booster_versions =
      raw.map (fun r => boosterOf api r.rocket) from rfl,
      getD_map _ raw i hi none default, hb]
  unfold _create_dataframe
  rw [List.mem_filter]
  constructor
  · exact List.mem_map.mpr ⟨i, List.mem_range.mpr hi, rfl⟩
  · rw [hrow]
    rfl

/-- C9 witness: the theorem applied to one record whose rocket look-up
fails on every id. -/
theorem c9_witness :
    rowAt (enrich apiFail [default]) 0 ∈
      _create_dataframe (enrich apiFail [default]) :=
  c9_null_booster_survives apiFail [default] 0 (by decide) rfl

/-- C10: the Date column of the final table holds the full `date_utc`
timestamp of each record (time-of-day included), while the derived plain
date exists alongside it on the raw record and equals only the day
component; normalization preserves `date_utc` unchanged. -/
theorem c10_date_column :
    (∀ (s : ExtractorState) (i : Nat), i < s.raw_data.length →
      (rowAt s i).date = (s.raw_data.getD i default).date_utc) ∧
    (∀ e : ApiEntry, (unwrapEntry e).date_utc = e.date_utc ∧
      (unwrapEntry e).date = deriveDate e.date_utc) := by
  constructor
  · intro s i hi
    show (s.raw_data.map RawRecord.date_utc).getD i default = _
    rw [getD_map _ s.raw_data i hi default default]
  · intro e
    exact ⟨rfl, rfl⟩

/-- C10 witness: the theorem applied to a one-record state and to the
fixture entry dated day 5 with time-of-day 30. -/
theorem c10_witness :
    (rowAt (enrich apiFail [default]) 0).date = Timestamp.mk 0 0 ∧
    (unwrapEntry entAtCutoff).date_utc = Timestamp.mk 5 30 :=
  ⟨c10_date_column.1 (enrich apiFail [default]) 0 (by decide),
   (c10_date_column.2 entAtCutoff).1⟩

end Falcon9
